import Mathlib

/-!
Shallow embedding of the booking-creation scripts of the Tricykol repository
(`src/scripts/create_booking.py` and `src/scripts/create_group_booking.py`).

Modelling conventions:
* Python `int` is `ℤ`; Python float arithmetic on the decimal inputs exercised
  here is modelled exactly over `ℚ` (every quantity involved stays far from the
  rounding/truncation boundaries, so the rational value and the double value
  truncate and round identically).
* Python `round` (round half to even) is `pyRound`; Python `int()` applied to a
  number (truncation toward zero) is `truncInt`.
* `random.randint a b` is modelled by `randint a b r`: the caller supplies an
  entropy stream `rng : ℕ → ℕ` (one draw per call site, in call order) and the
  result is forced into the inclusive range `[a, b]` exactly as the library
  guarantees.
* `uuid.uuid4()` is a caller-supplied identifier stream `uuidGen : ℕ → String`.
* The Firestore passenger collection is an association list
  `List (String × Passenger)`; document writes performed by a script run are
  returned explicitly in an `Outcome` together with the returned result dict
  and the number of identifiers generated, so "no record is written" and "no
  identifier is generated" are stated directly.
* The Firestore `SERVER_TIMESTAMP` sentinels (`dateTime`, `createdAt`,
  `updatedAt`) and the display label strings (`"Pickup at %.6f, %.6f"`) are
  glue owned by the store / console; no claim depends on them and they are
  omitted from the record.
-/

namespace Tricykol

/-- Floor of a rational, written so that the kernel can evaluate it
(equal to `⌊q⌋`, see `ratFloor_eq`). -/
def ratFloor (q : ℚ) : ℤ :=
  q.num / (q.den : ℤ)

/-- Ceiling of a rational, kernel-evaluable (equal to `⌈q⌉`, see
`ratCeil_eq`). -/
def ratCeil (q : ℚ) : ℤ :=
  -ratFloor (-q)

/-- Python `round` on a rational: round half to even
(`round(0.5) == 0`, `round(1.5) == 2`, `round(2.5) == 2`, `round(-0.5) == 0`). -/
def pyRound (q : ℚ) : ℤ :=
  let f := ratFloor q
  if q - f < 1/2 then f
  else if q - f > 1/2 then f + 1
  else if f % 2 = 0 then f else f + 1

/-- Python `int()` on a rational: truncation toward zero. -/
def truncInt (q : ℚ) : ℤ :=
  if q < 0 then ratCeil q else ratFloor q

/-- Model of `random.randint lo hi` (inclusive bounds): the entropy `r` comes
from the caller-supplied stream and is reduced into the range. -/
def randint (lo hi : ℤ) (r : ℕ) : ℤ :=
  lo + Int.emod (r : ℤ) (hi - lo + 1)

/-- `calculate_fare` from `create_group_booking.py` (lines 21-40):
base fare 25 for the first km, `round(additional_km * 8)` per additional km,
10 per additional passenger, and a final `round` of the total. -/
def calculate_fare (distance_meters : ℤ) (passenger_count : ℤ) : ℤ :=
  let distance_km : ℚ := (distance_meters : ℚ) / 1000
  let base_fare : ℤ := 25
  let additional_km : ℚ := max 0 (distance_km - 1)
  let additional_fare : ℤ := pyRound (additional_km * 8)
  let additional_passenger_fare : ℤ := (passenger_count - 1) * 10
  let total_fare : ℤ := base_fare + additional_fare + additional_passenger_fare
  pyRound ((total_fare : ℚ))

/-- The simplified "geohash" of both scripts
(`f"{int(pickup_lat * 1000)}-{int(pickup_lng * 1000)}"`). -/
def geohashOf (pickup_lat pickup_lng : ℚ) : String :=
  toString (truncInt (pickup_lat * 1000)) ++ "-" ++ toString (truncInt (pickup_lng * 1000))

/-- Guardian sub-record of a passenger document; `none` means the key is
absent from the document. -/
structure Guardian where
  name : Option String
  phoneNumber : Option String
  relationship : Option String
deriving DecidableEq, Inhabited

/-- Passenger document as read from the `passengers` collection. -/
structure Passenger where
  name : Option String
  phoneNumber : Option String
  guardian : Option Guardian
deriving DecidableEq, Inhabited

/-- Python truthiness of `dict.get('phoneNumber')`: `None` and the empty
string are falsy. -/
def truthyStr : Option String → Bool
  | none => false
  | some s => s != ""

/-- `guardianNotification` sub-record of a booking document. -/
structure GuardianNotification where
  name : String
  phoneNumber : Option String
  relationship : String
  notified : Bool
deriving DecidableEq, Inhabited

/-- `pickupLocation` sub-document (display label omitted, see header). -/
structure PickupLocation where
  latitude : ℚ
  longitude : ℚ
  geohash : String
deriving DecidableEq, Inhabited

/-- `dropoffLocation` sub-document (display label omitted, see header). -/
structure DropoffLocation where
  latitude : ℚ
  longitude : ℚ
deriving DecidableEq, Inhabited

/-- Booking document written to the `bookings` collection. Fields present
only in group bookings (`passengerCount`, `isGroupBooking`) are `Option`s;
`none` means the key is absent (single-passenger bookings). -/
structure Booking where
  id : String
  passengerId : String
  passengerName : String
  passengerPhone : String
  passengerCount : Option ℤ
  pickupLocation : PickupLocation
  dropoffLocation : DropoffLocation
  status : String
  estimatedDistance : ℤ
  estimatedDuration : ℤ
  estimatedFare : ℤ
  isGroupBooking : Option Bool
  driverId : Option String
  guardianNotification : Option GuardianNotification
deriving DecidableEq, Inhabited

/-- Return dict of the two scripts: either `{'success': False, 'error': msg}`
or the success dict (with the extra `passengerCount` / `estimatedFare` keys in
the group path). -/
inductive CreateResult where
  | err (error : String)
  | okSingle (bookingId : String) (message : String)
  | okGroup (bookingId : String) (passengerCount : ℤ) (estimatedFare : ℤ) (message : String)
deriving DecidableEq, Inhabited

/-- The `success` flag of the returned dict. -/
def CreateResult.successFlag : CreateResult → Bool
  | .err _ => false
  | .okSingle _ _ => true
  | .okGroup _ _ _ _ => true

/-- Observable outcome of one script run: the returned dict, the documents
written to the `bookings` collection, and how many unique identifiers were
generated. -/
structure Outcome where
  result : CreateResult
  writes : List (String × Booking)
  uuidsUsed : ℕ
deriving DecidableEq, Inhabited

/-- The booking documents written during a run. -/
def bookingsOf (o : Outcome) : List Booking :=
  o.writes.map Prod.snd

/-- The `guardianNotification` construction, identical in both scripts
(`create_booking.py` lines 83-89, `create_group_booking.py` lines 117-123):
present iff the passenger document has a `guardian` entry whose
`phoneNumber` is truthy; name and relationship default to `"Guardian"`. -/
def guardianNotificationOf (pd : Passenger) : Option GuardianNotification :=
  match pd.guardian with
  | some g =>
      if truthyStr g.phoneNumber then
        some ⟨g.name.getD "Guardian", g.phoneNumber, g.relationship.getD "Guardian", false⟩
      else none
  | none => none

/-- The booking document assembled by `create_booking.py` (lines 56-89). -/
def mkSingleBooking (passenger_id : String) (pd : Passenger)
    (pickup_lat pickup_lng dropoff_lat dropoff_lng : ℚ)
    (booking_id : String) (rng : ℕ → ℕ) : Booking :=
  ⟨booking_id, passenger_id,
    pd.name.getD "Unknown Passenger", pd.phoneNumber.getD "Unknown",
    none,
    ⟨pickup_lat, pickup_lng, geohashOf pickup_lat pickup_lng⟩,
    ⟨dropoff_lat, dropoff_lng⟩,
    "pending",
    randint 1000 5000 (rng 0),
    randint 300 1200 (rng 1),
    randint 25 100 (rng 2),
    none, none,
    guardianNotificationOf pd⟩

/-- `create_booking` from `create_booking.py` (lines 21-107): verify the
passenger exists, then generate an identifier, assemble the booking document
and write it. -/
def create_booking (db : List (String × Passenger)) (passenger_id : String)
    (pickup_lat pickup_lng dropoff_lat dropoff_lng : ℚ)
    (uuidGen : ℕ → String) (rng : ℕ → ℕ) : Outcome :=
  match List.lookup passenger_id db with
  | none =>
      ⟨.err ("Passenger with ID " ++ passenger_id ++ " does not exist"), [], 0⟩
  | some pd =>
      let booking_id := uuidGen 0
      let booking := mkSingleBooking passenger_id pd
        pickup_lat pickup_lng dropoff_lat dropoff_lng booking_id rng
      ⟨.okSingle booking_id "Booking created successfully",
        [(booking_id, booking)], 1⟩

/-- The booking document assembled by `create_group_booking.py`
(lines 88-123). The estimated distance is drawn first and the fare computed
from it by `calculate_fare`. -/
def mkGroupBooking (passenger_id : String) (pd : Passenger)
    (pickup_lat pickup_lng dropoff_lat dropoff_lng : ℚ) (passenger_count : ℤ)
    (booking_id : String) (rng : ℕ → ℕ) : Booking :=
  let estimated_distance := randint 1000 5000 (rng 0)
  ⟨booking_id, passenger_id,
    pd.name.getD "Unknown Passenger", pd.phoneNumber.getD "Unknown",
    some passenger_count,
    ⟨pickup_lat, pickup_lng, geohashOf pickup_lat pickup_lng⟩,
    ⟨dropoff_lat, dropoff_lng⟩,
    "pending",
    estimated_distance,
    randint 300 1200 (rng 1),
    calculate_fare estimated_distance passenger_count,
    some true, none,
    guardianNotificationOf pd⟩

/-- `create_group_booking` from `create_group_booking.py` (lines 42-145):
validate the passenger count (`passenger_count not in [2, 3]` fails), verify
the passenger exists, then assemble and write the booking document. -/
def create_group_booking (db : List (String × Passenger)) (passenger_id : String)
    (pickup_lat pickup_lng dropoff_lat dropoff_lng : ℚ) (passenger_count : ℤ)
    (uuidGen : ℕ → String) (rng : ℕ → ℕ) : Outcome :=
  if ¬(passenger_count = 2 ∨ passenger_count = 3) then
    ⟨.err "Passenger count must be 2 or 3", [], 0⟩
  else
    match List.lookup passenger_id db with
    | none =>
        ⟨.err ("Passenger with ID " ++ passenger_id ++ " does not exist"), [], 0⟩
    | some pd =>
        let booking_id := uuidGen 0
        let booking := mkGroupBooking passenger_id pd
          pickup_lat pickup_lng dropoff_lat dropoff_lng passenger_count booking_id rng
        ⟨.okGroup booking_id passenger_count booking.estimatedFare
            "Group booking created successfully",
          [(booking_id, booking)], 1⟩

/-! Sample data used by concrete witnesses. -/

/-- A passenger document with no guardian entry. -/
def samplePassenger : Passenger := ⟨some "Ana", some "09171234567", none⟩

/-- A guardian entry with a truthy phone number and missing name and
relationship keys. -/
def sampleGuardian : Guardian := ⟨none, some "09998887777", none⟩

/-- A passenger document carrying `sampleGuardian`. -/
def samplePassengerG : Passenger := ⟨some "Ben", some "09170000001", some sampleGuardian⟩

/-- A two-passenger directory. -/
def sampleDb : List (String × Passenger) := [("p1", samplePassenger), ("p2", samplePassengerG)]

/-- A concrete identifier stream. -/
def sampleUuid : ℕ → String := fun _ => "uuid-0"

/-- A concrete entropy stream. -/
def sampleRng : ℕ → ℕ := fun k => k

/-- The single booking document written by a sample `create_booking` run. -/
def sampleSingleBooking : Booking :=
  (bookingsOf (create_booking sampleDb "p1" 14.1234 121.5678 14.2 121.6
    sampleUuid sampleRng)).headD default

/-- The single booking document written by a sample `create_group_booking`
run with two passengers. -/
def sampleGroupBooking : Booking :=
  (bookingsOf (create_group_booking sampleDb "p2" 14.1 121.5 14.2 121.6 2
    sampleUuid sampleRng)).headD default

/-! Helper lemmas. -/

/-- `ratFloor` agrees with the mathematical floor. -/
lemma ratFloor_eq (q : ℚ) : ratFloor q = ⌊q⌋ :=
  Rat.floor_def.symm

/-- `ratCeil` agrees with the mathematical ceiling. -/
lemma ratCeil_eq (q : ℚ) : ratCeil q = ⌈q⌉ := by
  rw [ratCeil, ratFloor_eq, Int.floor_neg, neg_neg]

/-- `pyRound` of an integer is that integer. -/
lemma pyRound_intCast (n : ℤ) : pyRound ((n : ℚ)) = n := by
  unfold pyRound
  rw [ratFloor_eq, Int.floor_intCast]
  norm_num

/-- `pyRound` of a nonnegative rational is nonnegative. -/
lemma pyRound_nonneg (q : ℚ) (h : 0 ≤ q) : 0 ≤ pyRound q := by
  have hf : 0 ≤ ⌊q⌋ := Int.floor_nonneg.mpr h
  unfold pyRound
  rw [ratFloor_eq]
  dsimp only
  split_ifs <;> omega

/-- `calculate_fare` with the final rounding of an integer total removed. -/
lemma calculate_fare_eq (d p : ℤ) :
    calculate_fare d p = 25 + pyRound (max 0 ((d : ℚ) / 1000 - 1) * 8) + (p - 1) * 10 := by
  unfold calculate_fare
  exact pyRound_intCast _

/-- `randint lo hi r` lies in `[lo, hi]` whenever `lo ≤ hi`. -/
lemma randint_bounds (lo hi : ℤ) (r : ℕ) (h : lo ≤ hi) :
    lo ≤ randint lo hi r ∧ randint lo hi r ≤ hi := by
  have hm : 0 < hi - lo + 1 := by omega
  have h0 : 0 ≤ Int.emod (r : ℤ) (hi - lo + 1) := Int.emod_nonneg _ (by omega)
  have h1 : Int.emod (r : ℤ) (hi - lo + 1) < hi - lo + 1 := Int.emod_lt_of_pos _ hm
  unfold randint
  omega

/-- A booking written by `create_booking` comes from a found passenger and is
exactly the assembled document. -/
lemma mem_bookingsOf_create_booking {db : List (String × Passenger)} {pid : String}
    {plat plng dlat dlng : ℚ} {uuidGen : ℕ → String} {rng : ℕ → ℕ} {b : Booking}
    (hmem : b ∈ bookingsOf (create_booking db pid plat plng dlat dlng uuidGen rng)) :
    ∃ pd, List.lookup pid db = some pd
      ∧ b = mkSingleBooking pid pd plat plng dlat dlng (uuidGen 0) rng := by
  unfold create_booking at hmem
  cases hl : List.lookup pid db with
  | none =>
      rw [hl] at hmem
      simp [bookingsOf] at hmem
  | some pd =>
      rw [hl] at hmem
      simp [bookingsOf] at hmem
      exact ⟨pd, rfl, hmem⟩

/-- A booking written by `create_group_booking` comes from a valid passenger
count and a found passenger, and is exactly the assembled document. -/
lemma mem_bookingsOf_create_group_booking {db : List (String × Passenger)} {pid : String}
    {plat plng dlat dlng : ℚ} {count : ℤ} {uuidGen : ℕ → String} {rng : ℕ → ℕ} {b : Booking}
    (hmem : b ∈ bookingsOf (create_group_booking db pid plat plng dlat dlng count uuidGen rng)) :
    (count = 2 ∨ count = 3) ∧ ∃ pd, List.lookup pid db = some pd
      ∧ b = mkGroupBooking pid pd plat plng dlat dlng count (uuidGen 0) rng := by
  unfold create_group_booking at hmem
  by_cases hc : count = 2 ∨ count = 3
  · rw [if_neg (not_not_intro hc)] at hmem
    refine ⟨hc, ?_⟩
    cases hl : List.lookup pid db with
    | none =>
        rw [hl] at hmem
        simp [bookingsOf] at hmem
    | some pd =>
        rw [hl] at hmem
        simp [bookingsOf] at hmem
        exact ⟨pd, rfl, hmem⟩
  · rw [if_pos hc] at hmem
    simp [bookingsOf] at hmem

section ClaimTheorems

attribute [local semireducible] Rat.mul Rat.add Rat.sub Rat.inv Rat.ofScientific

/-- Claim C1: for every `distance_meters` and `passenger_count`,
`calculate_fare` returns
`round(25 + round(max(0, distance_meters/1000 - 1) * 8) + (passenger_count - 1) * 10)`,
with both rounding points applied (the per-km term first, then the grand
total) using round-half-to-even; the trailing conjuncts exhibit the
half-to-even behaviour of the rounding function itself. -/
theorem calculate_fare_formula_c1 :
    (∀ d p : ℤ, calculate_fare d p
        = pyRound (((25 + pyRound (max 0 ((d : ℚ) / 1000 - 1) * 8) + (p - 1) * 10 : ℤ) : ℚ)))
    ∧ pyRound (1/2 : ℚ) = 0 ∧ pyRound (3/2 : ℚ) = 2 ∧ pyRound (5/2 : ℚ) = 2
    ∧ pyRound (-(1/2) : ℚ) = 0 ∧ pyRound (-(3/2) : ℚ) = -2 :=
  ⟨fun _ _ => rfl, by decide, by decide, by decide, by decide, by decide⟩

/-- Claim C4: `calculate_fare 1000 2 = 35`, `calculate_fare 2000 2 = 43`
and `calculate_fare 2500 3 = 57`: at the 1 km threshold there is no per-km
surcharge, and the per-km term is rounded before being added. -/
theorem calculate_fare_examples_c4 :
    calculate_fare 1000 2 = 35 ∧ calculate_fare 2000 2 = 43 ∧ calculate_fare 2500 3 = 57 := by
  decide

/-- Claim C5: for every `passenger_count` in `{2, 3}` and every
`distance_meters` in `[0, 10000]`, the fare is at least
`25 + (passenger_count - 1) * 10`. -/
theorem fare_lower_bound_c5 (d p : ℤ) (hp : p = 2 ∨ p = 3)
    (h0 : 0 ≤ d) (h1 : d ≤ 10000) :
    25 + (p - 1) * 10 ≤ calculate_fare d p := by
  have h2 : 0 ≤ pyRound (max 0 ((d : ℚ) / 1000 - 1) * 8) :=
    pyRound_nonneg _ (mul_nonneg (le_max_left 0 _) (by norm_num))
  rw [calculate_fare_eq]
  omega

/-- Witness for C5 at `distance_meters = 2500`, `passenger_count = 3`. -/
theorem fare_lower_bound_c5_witness :
    ((3 : ℤ) = 2 ∨ (3 : ℤ) = 3) ∧ (0 : ℤ) ≤ 2500 ∧ (2500 : ℤ) ≤ 10000
    ∧ 25 + ((3 : ℤ) - 1) * 10 ≤ calculate_fare 2500 3 :=
  ⟨Or.inr rfl, by decide, by decide, fare_lower_bound_c5 2500 3 (Or.inr rfl) (by decide) (by decide)⟩

/-- Claim C2 counterexample: `passengerCount = 1` lies in `{1, 2, 3}` and the
passenger exists, yet `create_group_booking` returns the structured
validation failure and writes no record — the code validates against
`{2, 3}`, not `{1, 2, 3}`. -/
theorem group_count_one_counterexample_c2 :
    List.lookup "p1" sampleDb = some samplePassenger
    ∧ (create_group_booking sampleDb "p1" 14.1 121.5 14.2 121.6 1 sampleUuid sampleRng).result
        = CreateResult.err "Passenger count must be 2 or 3"
    ∧ bookingsOf (create_group_booking sampleDb "p1" 14.1 121.5 14.2 121.6 1 sampleUuid sampleRng)
        = [] := by
  decide

/-- Claim C2 (amended): for every `passengerCount` in `{2, 3}` validation
succeeds and estimation proceeds (with an existing passenger a booking record
is produced); for every `passengerCount` outside `{2, 3}` — including 1 and
4 — the operation returns a structured validation failure, writes no booking
record and generates no identifier. -/
theorem group_count_validation_c2 (db : List (String × Passenger)) (pid : String)
    (plat plng dlat dlng : ℚ) (count : ℤ) (uuidGen : ℕ → String) (rng : ℕ → ℕ) :
    (¬(count = 2 ∨ count = 3) →
      create_group_booking db pid plat plng dlat dlng count uuidGen rng
        = ⟨CreateResult.err "Passenger count must be 2 or 3", [], 0⟩)
    ∧ ((count = 2 ∨ count = 3) → ∀ pd, List.lookup pid db = some pd →
      (create_group_booking db pid plat plng dlat dlng count uuidGen rng).result.successFlag
          = true
      ∧ bookingsOf (create_group_booking db pid plat plng dlat dlng count uuidGen rng) ≠ []) := by
  constructor
  · intro h
    unfold create_group_booking
    rw [if_pos h]
  · intro h pd hpd
    unfold create_group_booking
    rw [if_neg (not_not_intro h), hpd]
    simp [bookingsOf, CreateResult.successFlag]

/-- Witness for C2 (amended): count 4 is rejected with no write, count 2 with
an existing passenger succeeds. -/
theorem group_count_validation_c2_witness :
    create_group_booking sampleDb "p1" 14.1 121.5 14.2 121.6 4 sampleUuid sampleRng
      = ⟨CreateResult.err "Passenger count must be 2 or 3", [], 0⟩
    ∧ (create_group_booking sampleDb "p2" 14.1 121.5 14.2 121.6 2 sampleUuid sampleRng).result.successFlag
        = true :=
  ⟨(group_count_validation_c2 sampleDb "p1" 14.1 121.5 14.2 121.6 4 sampleUuid sampleRng).1
      (by decide),
   ((group_count_validation_c2 sampleDb "p2" 14.1 121.5 14.2 121.6 2 sampleUuid sampleRng).2
      (Or.inl rfl) samplePassengerG (by decide)).1⟩

/-- Claim C3: for every passenger identifier not present in the passenger
directory, both creation operations return a structured not-found failure
(success flag false plus a descriptive message), write no booking record and
generate no identifier. -/
theorem unknown_passenger_c3 (db : List (String × Passenger)) (pid : String)
    (plat plng dlat dlng : ℚ) (uuidGen : ℕ → String) (rng : ℕ → ℕ)
    (h : List.lookup pid db = none) :
    create_booking db pid plat plng dlat dlng uuidGen rng
      = ⟨CreateResult.err ("Passenger with ID " ++ pid ++ " does not exist"), [], 0⟩
    ∧ (∀ count : ℤ, (count = 2 ∨ count = 3) →
        create_group_booking db pid plat plng dlat dlng count uuidGen rng
          = ⟨CreateResult.err ("Passenger with ID " ++ pid ++ " does not exist"), [], 0⟩)
    ∧ (∀ s, (CreateResult.err s).successFlag = false) := by
  refine ⟨?_, ?_, fun _ => rfl⟩
  · unfold create_booking
    rw [h]
  · intro count hc
    unfold create_group_booking
    rw [if_neg (not_not_intro hc), h]

/-- Witness for C3 at the unknown identifier `"ghost"`. -/
theorem unknown_passenger_c3_witness :
    List.lookup "ghost" sampleDb = none
    ∧ create_booking sampleDb "ghost" 14.1 121.5 14.2 121.6 sampleUuid sampleRng
        = ⟨CreateResult.err ("Passenger with ID " ++ "ghost" ++ " does not exist"), [], 0⟩ :=
  ⟨by decide,
   (unknown_passenger_c3 sampleDb "ghost" 14.1 121.5 14.2 121.6 sampleUuid sampleRng
      (by decide)).1⟩

/-- Claim C6: the bucket key is a deterministic function of the pickup
coordinates only (both operations store `geohashOf` of the pickup point);
two pickups with equal three-decimal truncations share the key; the key for
`(14.1234, 121.5678)` equals the key for `(14.1239, 121.5671)` and differs
from the key for `(14.1250, 121.5678)`. -/
theorem bucket_key_c6 :
    (∀ db pid (plat plng dlat dlng : ℚ) uuidGen rng (b : Booking),
        b ∈ bookingsOf (create_booking db pid plat plng dlat dlng uuidGen rng) →
        b.pickupLocation.geohash = geohashOf plat plng)
    ∧ (∀ db pid (plat plng dlat dlng : ℚ) (count : ℤ) uuidGen rng (b : Booking),
        b ∈ bookingsOf (create_group_booking db pid plat plng dlat dlng count uuidGen rng) →
        b.pickupLocation.geohash = geohashOf plat plng)
    ∧ (∀ lat1 lng1 lat2 lng2 : ℚ,
        truncInt (lat1 * 1000) = truncInt (lat2 * 1000) →
        truncInt (lng1 * 1000) = truncInt (lng2 * 1000) →
        geohashOf lat1 lng1 = geohashOf lat2 lng2)
    ∧ geohashOf 14.1234 121.5678 = geohashOf 14.1239 121.5671
    ∧ geohashOf 14.1234 121.5678 ≠ geohashOf 14.1250 121.5678 := by
  refine ⟨?_, ?_, ?_, by decide, by decide⟩
  · intro db pid plat plng dlat dlng uuidGen rng b hmem
    obtain ⟨pd, _, rfl⟩ := mem_bookingsOf_create_booking hmem
    rfl
  · intro db pid plat plng dlat dlng count uuidGen rng b hmem
    obtain ⟨_, pd, _, rfl⟩ := mem_bookingsOf_create_group_booking hmem
    rfl
  · intro lat1 lng1 lat2 lng2 h1 h2
    unfold geohashOf
    rw [h1, h2]

/-- Witness for C6: two distinct pickups in one truncation cell, and a
concrete booking whose stored key is the pickup bucket key. -/
theorem bucket_key_c6_witness :
    geohashOf 14.1001 121.2002 = geohashOf 14.1009 121.2003
    ∧ sampleSingleBooking.pickupLocation.geohash = geohashOf 14.1234 121.5678 :=
  ⟨bucket_key_c6.2.2.1 14.1001 121.2002 14.1009 121.2003 (by decide) (by decide),
   bucket_key_c6.1 sampleDb "p1" 14.1234 121.5678 14.2 121.6 sampleUuid sampleRng
     sampleSingleBooking (by decide)⟩

/-- Claim C7: in the single-passenger path every written booking has
estimated distance in `[1000, 5000]`, estimated duration in `[300, 1200]`
and estimated fare in `[25, 100]`, and the three estimates do not depend on
the coordinates. -/
theorem single_estimates_c7 (db : List (String × Passenger)) (pid : String)
    (plat plng dlat dlng : ℚ) (uuidGen : ℕ → String) (rng : ℕ → ℕ) (b : Booking)
    (hmem : b ∈ bookingsOf (create_booking db pid plat plng dlat dlng uuidGen rng)) :
    (1000 ≤ b.estimatedDistance ∧ b.estimatedDistance ≤ 5000)
    ∧ (300 ≤ b.estimatedDuration ∧ b.estimatedDuration ≤ 1200)
    ∧ (25 ≤ b.estimatedFare ∧ b.estimatedFare ≤ 100)
    ∧ ∀ (plat' plng' dlat' dlng' : ℚ) (b' : Booking),
        b' ∈ bookingsOf (create_booking db pid plat' plng' dlat' dlng' uuidGen rng) →
        b.estimatedDistance = b'.estimatedDistance
        ∧ b.estimatedDuration = b'.estimatedDuration
        ∧ b.estimatedFare = b'.estimatedFare := by
  obtain ⟨pd, hpd, rfl⟩ := mem_bookingsOf_create_booking hmem
  refine ⟨randint_bounds 1000 5000 (rng 0) (by norm_num),
    randint_bounds 300 1200 (rng 1) (by norm_num),
    randint_bounds 25 100 (rng 2) (by norm_num), ?_⟩
  intro plat' plng' dlat' dlng' b' hmem'
  obtain ⟨pd', hpd', rfl⟩ := mem_bookingsOf_create_booking hmem'
  exact ⟨rfl, rfl, rfl⟩

/-- Witness for C7 on a concrete run. -/
theorem single_estimates_c7_witness :
    sampleSingleBooking
        ∈ bookingsOf (create_booking sampleDb "p1" 14.1234 121.5678 14.2 121.6
            sampleUuid sampleRng)
    ∧ (1000 ≤ sampleSingleBooking.estimatedDistance
        ∧ sampleSingleBooking.estimatedDistance ≤ 5000)
    ∧ (25 ≤ sampleSingleBooking.estimatedFare ∧ sampleSingleBooking.estimatedFare ≤ 100) := by
  have h := single_estimates_c7 sampleDb "p1" 14.1234 121.5678 14.2 121.6
    sampleUuid sampleRng sampleSingleBooking (by decide)
  exact ⟨by decide, h.1, h.2.2.1⟩

/-- Claim C8: every written booking record — single or group — has status
`"pending"`, no assigned driver, and positive estimated distance, duration
and fare. -/
theorem booking_invariants_c8 :
    (∀ db pid (plat plng dlat dlng : ℚ) uuidGen rng (b : Booking),
        b ∈ bookingsOf (create_booking db pid plat plng dlat dlng uuidGen rng) →
        b.status = "pending" ∧ b.driverId = none
        ∧ 0 < b.estimatedDistance ∧ 0 < b.estimatedDuration ∧ 0 < b.estimatedFare)
    ∧ (∀ db pid (plat plng dlat dlng : ℚ) (count : ℤ) uuidGen rng (b : Booking),
        b ∈ bookingsOf (create_group_booking db pid plat plng dlat dlng count uuidGen rng) →
        b.status = "pending" ∧ b.driverId = none
        ∧ 0 < b.estimatedDistance ∧ 0 < b.estimatedDuration ∧ 0 < b.estimatedFare) := by
  constructor
  · intro db pid plat plng dlat dlng uuidGen rng b hmem
    obtain ⟨pd, hpd, rfl⟩ := mem_bookingsOf_create_booking hmem
    have h1 := randint_bounds 1000 5000 (rng 0) (by norm_num)
    have h2 := randint_bounds 300 1200 (rng 1) (by norm_num)
    have h3 := randint_bounds 25 100 (rng 2) (by norm_num)
    refine ⟨rfl, rfl, ?_, ?_, ?_⟩
    · show 0 < randint 1000 5000 (rng 0)
      omega
    · show 0 < randint 300 1200 (rng 1)
      omega
    · show 0 < randint 25 100 (rng 2)
      omega
  · intro db pid plat plng dlat dlng count uuidGen rng b hmem
    obtain ⟨hc, pd, hpd, rfl⟩ := mem_bookingsOf_create_group_booking hmem
    have h1 := randint_bounds 1000 5000 (rng 0) (by norm_num)
    have h2 := randint_bounds 300 1200 (rng 1) (by norm_num)
    have hfare : 0 < calculate_fare (randint 1000 5000 (rng 0)) count := by
      have h3 : 0 ≤ pyRound (max 0 (((randint 1000 5000 (rng 0) : ℤ) : ℚ) / 1000 - 1) * 8) :=
        pyRound_nonneg _ (mul_nonneg (le_max_left 0 _) (by norm_num))
      rw [calculate_fare_eq]
      rcases hc with h | h <;> omega
    refine ⟨rfl, rfl, ?_, ?_, ?_⟩
    · show 0 < randint 1000 5000 (rng 0)
      omega
    · show 0 < randint 300 1200 (rng 1)
      omega
    · show 0 < calculate_fare (randint 1000 5000 (rng 0)) count
      exact hfare

/-- Witness for C8 on concrete single and group runs. -/
theorem booking_invariants_c8_witness :
    (sampleSingleBooking.status = "pending" ∧ sampleSingleBooking.driverId = none
      ∧ 0 < sampleSingleBooking.estimatedFare)
    ∧ (sampleGroupBooking.status = "pending" ∧ sampleGroupBooking.driverId = none
      ∧ 0 < sampleGroupBooking.estimatedFare) := by
  have h1 := booking_invariants_c8.1 sampleDb "p1" 14.1234 121.5678 14.2 121.6
    sampleUuid sampleRng sampleSingleBooking (by decide)
  have h2 := booking_invariants_c8.2 sampleDb "p2" 14.1 121.5 14.2 121.6 2
    sampleUuid sampleRng sampleGroupBooking (by decide)
  exact ⟨⟨h1.1, h1.2.1, h1.2.2.2.2⟩, ⟨h2.1, h2.2.1, h2.2.2.2.2⟩⟩

/-- Claim C9: a booking contains a `guardianNotification` sub-record iff the
passenger document has a `guardian` entry with a truthy `phoneNumber`; when
included its `notified` flag is false, and a missing guardian name or
relationship defaults to `"Guardian"`. -/
theorem guardian_notification_c9 (pd : Passenger) :
    ((guardianNotificationOf pd).isSome = true ↔
      ∃ g, pd.guardian = some g ∧ truthyStr g.phoneNumber = true)
    ∧ (∀ g, pd.guardian = some g → truthyStr g.phoneNumber = true →
        guardianNotificationOf pd
          = some ⟨g.name.getD "Guardian", g.phoneNumber, g.relationship.getD "Guardian", false⟩)
    ∧ (∀ gn, guardianNotificationOf pd = some gn → gn.notified = false)
    ∧ (∀ db pid (plat plng dlat dlng : ℚ) uuidGen rng (b : Booking),
        List.lookup pid db = some pd →
        (b ∈ bookingsOf (create_booking db pid plat plng dlat dlng uuidGen rng) →
          b.guardianNotification = guardianNotificationOf pd)
        ∧ ∀ count : ℤ,
            b ∈ bookingsOf (create_group_booking db pid plat plng dlat dlng count uuidGen rng) →
            b.guardianNotification = guardianNotificationOf pd) := by
  refine ⟨?_, ?_, ?_, ?_⟩
  · unfold guardianNotificationOf
    cases hg : pd.guardian with
    | none => simp
    | some g =>
        by_cases ht : truthyStr g.phoneNumber = true
        · simp [ht]
        · simp [ht]
  · intro g hg ht
    unfold guardianNotificationOf
    rw [hg]
    simp [ht]
  · intro gn h
    unfold guardianNotificationOf at h
    cases hg : pd.guardian with
    | none =>
        rw [hg] at h
        exact Option.noConfusion h
    | some g =>
        rw [hg] at h
        dsimp only at h
        by_cases ht : truthyStr g.phoneNumber = true
        · rw [if_pos ht] at h
          rw [← Option.some.inj h]
        · rw [if_neg ht] at h
          exact Option.noConfusion h
  · intro db pid plat plng dlat dlng uuidGen rng b hpd
    constructor
    · intro hmem
      obtain ⟨pd', hpd', rfl⟩ := mem_bookingsOf_create_booking hmem
      rw [hpd] at hpd'
      rw [Option.some.inj hpd']
      rfl
    · intro count hmem
      obtain ⟨_, pd', hpd', rfl⟩ := mem_bookingsOf_create_group_booking hmem
      rw [hpd] at hpd'
      rw [Option.some.inj hpd']
      rfl

/-- Witness for C9 on a passenger whose guardian entry has a phone number but
no name or relationship keys. -/
theorem guardian_notification_c9_witness :
    guardianNotificationOf samplePassengerG
      = some ⟨"Guardian", some "09998887777", "Guardian", false⟩
    ∧ sampleGroupBooking.guardianNotification = guardianNotificationOf samplePassengerG := by
  have h := guardian_notification_c9 samplePassengerG
  refine ⟨?_, ?_⟩
  · exact h.2.1 sampleGuardian rfl (by decide)
  · exact (h.2.2.2 sampleDb "p2" 14.1 121.5 14.2 121.6 sampleUuid sampleRng
      sampleGroupBooking (by decide)).2 2 (by decide)

/-- Claim C10: the bucket-key components truncate toward zero (Python
`int()`), not by flooring: every latitude strictly between `-0.001` and
`0.001` yields component 0, the components of `-0.0005` and `0.0005` agree
(adjacent cells on either side of zero), and at `-0.0005` truncation differs
from the floor. -/
theorem trunc_toward_zero_c10 :
    (∀ lat : ℚ, -(1/1000) < lat → lat < 1/1000 → truncInt (lat * 1000) = 0)
    ∧ truncInt ((-0.0005 : ℚ) * 1000) = truncInt ((0.0005 : ℚ) * 1000)
    ∧ truncInt ((-0.0005 : ℚ) * 1000) ≠ ⌊((-0.0005 : ℚ) * 1000)⌋
    ∧ (∀ lng : ℚ, geohashOf (-0.0005) lng = geohashOf 0.0005 lng) := by
  have hfl : ⌊((-0.0005 : ℚ) * 1000)⌋ = -1 := by
    rw [← ratFloor_eq]
    decide
  refine ⟨?_, by decide, ?_, ?_⟩
  · intro lat h1 h2
    have hm1 : -1 < lat * 1000 := by linarith
    have hm2 : lat * 1000 < 1 := by linarith
    unfold truncInt
    split_ifs with h
    · rw [ratCeil_eq]
      exact Int.ceil_eq_zero_iff.mpr ⟨hm1, le_of_lt h⟩
    · rw [ratFloor_eq]
      exact Int.floor_eq_zero_iff.mpr ⟨not_lt.mp h, hm2⟩
  · rw [hfl]
    decide
  · intro lng
    unfold geohashOf
    have h : truncInt ((-0.0005 : ℚ) * 1000) = truncInt ((0.0005 : ℚ) * 1000) := by decide
    rw [h]

/-- Witness for C10 at latitude `1/2000 = 0.0005`. -/
theorem trunc_toward_zero_c10_witness :
    truncInt ((1/2000 : ℚ) * 1000) = 0
    ∧ geohashOf (-0.0005) 121.5 = geohashOf 0.0005 121.5 :=
  ⟨trunc_toward_zero_c10.1 (1/2000) (by decide) (by decide),
   trunc_toward_zero_c10.2.2.2 121.5⟩

end ClaimTheorems

end Tricykol
